import Mathlib

/-!
Verification of the strategy builders and retrieval tool functions of the
gpt-rag-agentic repository.

The strategy classes `NL2SQLAdvisorStrategy`
(src/orchestration/strategies/nl2sql_advisor_strategy.py) and
`NL2SQLSingleAgentFewshotCreationStrategy`
(src/orchestration/strategies/nl2sql_single_agent_fewshot_creation_strategy.py)
build fixed agent sets with hardcoded transition tables and round caps.
The tool functions `vector_index_retrieve` and `cogmo_search`
(src/tools/retrieval/vector_index_retrieval.py) each wrap external HTTP
calls and format the response into a string.

External effects (embedding generation, credential/token acquisition,
HTTP requests, JSON parsing) are embedded by an explicit oracle record
describing the outcome of each fallible step; Python exceptions become
`Except` values, and the `try/except` block that swallows them becomes
the corresponding `match`.
-/

namespace GptRagAgentic

/-- The named conversational roles created by the two strategies.
The advisor strategy creates all three; the single-agent few-shot
strategy creates only `user` and `assistant`. -/
inductive Agent
  | user
  | assistant
  | advisor
  deriving DecidableEq, Repr

open Agent

/-- The dict returned by `NL2SQLAdvisorStrategy.create_agents`
(nl2sql_advisor_strategy.py lines 132-139): the agent list, the
`allowed_transitions` adjacency, and the `transitions_type` marker. -/
structure AgentConfiguration where
  agents : List Agent
  transitions : List (Agent × List Agent)
  transitions_type : String
  deriving DecidableEq, Repr

/-- The `allowed_transitions` dict of the advisor strategy
(nl2sql_advisor_strategy.py lines 126-130), in source order:
`{advisor: [user_proxy, assistant], user_proxy: [assistant],
assistant: [advisor, user_proxy]}`. -/
def advisorAllowedTransitions : List (Agent × List Agent) :=
  [(advisor, [user, assistant]),
   (user, [assistant]),
   (assistant, [advisor, user])]

/-- Successor lookup in a transition table: the list attached to the
first entry for `a`, or `[]` when `a` has no entry. -/
def successors (table : List (Agent × List Agent)) (a : Agent) : List Agent :=
  match table with
  | [] => []
  | (b, succ) :: rest => if a = b then succ else successors rest a

/-- The method `NL2SQLAdvisorStrategy.create_agents` returns a dict with agents,
transitions and `"transitions_type": "allowed"`
(nl2sql_advisor_strategy.py lines 132-139). -/
def NL2SQLAdvisorStrategy.create_agents : AgentConfiguration :=
  { agents := [user, assistant, advisor],
    transitions := advisorAllowedTransitions,
    transitions_type := "allowed" }

/-- The two possible shapes of a strategy's `create_agents` result: the
advisor strategy returns a configuration dict, the single-agent few-shot
strategy returns a bare list of agents. -/
inductive CreateAgentsResult
  | configuration (c : AgentConfiguration)
  | agentList (l : List Agent)
  deriving DecidableEq, Repr

/-- The method `NL2SQLSingleAgentFewshotCreationStrategy.create_agents` returns just
`[user_proxy, assistant]`
(nl2sql_single_agent_fewshot_creation_strategy.py line 117). -/
def NL2SQLSingleAgentFewshotCreationStrategy.create_agents : CreateAgentsResult :=
  CreateAgentsResult.agentList [user, assistant]

/-- The advisor strategy's result seen at the common result type. -/
def NL2SQLAdvisorStrategy.create_agents_result : CreateAgentsResult :=
  CreateAgentsResult.configuration NL2SQLAdvisorStrategy.create_agents

/-- Whether a `create_agents` result carries a transition table. -/
def CreateAgentsResult.hasTransitionTable : CreateAgentsResult → Bool
  | CreateAgentsResult.configuration _ => true
  | CreateAgentsResult.agentList _ => false

/-- The property `NL2SQLAdvisorStrategy.max_rounds` (nl2sql_advisor_strategy.py
lines 25-27). -/
def NL2SQLAdvisorStrategy.max_rounds : Nat := 30

/-- The property `NL2SQLSingleAgentFewshotCreationStrategy.max_rounds`
(nl2sql_single_agent_fewshot_creation_strategy.py lines 29-31). -/
def NL2SQLSingleAgentFewshotCreationStrategy.max_rounds : Nat := 20

/-- The property `NL2SQLAdvisorStrategy.send_introductions` (lines 29-31). -/
def NL2SQLAdvisorStrategy.send_introductions : Bool := true

/-- The property `NL2SQLSingleAgentFewshotCreationStrategy.send_introductions`
(lines 33-35). -/
def NL2SQLSingleAgentFewshotCreationStrategy.send_introductions : Bool := false

/-- C1: In the advisor scenario the transition table is exactly the fixed
adjacency: the user proxy may hand off only to the assistant, the
assistant to the advisor and the user proxy, the advisor to the user
proxy and the assistant; and the transitions are marked as an
allowed-list. -/
theorem advisor_transition_table_fixed :
    successors NL2SQLAdvisorStrategy.create_agents.transitions user = [assistant] ∧
    successors NL2SQLAdvisorStrategy.create_agents.transitions assistant = [advisor, user] ∧
    successors NL2SQLAdvisorStrategy.create_agents.transitions advisor = [user, assistant] ∧
    NL2SQLAdvisorStrategy.create_agents.transitions = advisorAllowedTransitions ∧
    NL2SQLAdvisorStrategy.create_agents.transitions_type = "allowed" := by
  refine ⟨rfl, rfl, rfl, rfl, rfl⟩

/-- C4: the round cap is 30 for the advisor strategy and 20 for the
single-agent few-shot strategy. -/
theorem max_rounds_values :
    NL2SQLAdvisorStrategy.max_rounds = 30 ∧
    NL2SQLSingleAgentFewshotCreationStrategy.max_rounds = 20 := by
  exact ⟨rfl, rfl⟩

/-- C6 counterexample: the single-agent few-shot variant's
`create_agents` returns a bare agent list with no transition table, so
it is false that both variants return a transition table alongside
their agents. -/
theorem fewshot_create_agents_no_transition_table :
    NL2SQLSingleAgentFewshotCreationStrategy.create_agents.hasTransitionTable = false ∧
    NL2SQLSingleAgentFewshotCreationStrategy.create_agents =
      CreateAgentsResult.agentList [user, assistant] := by
  exact ⟨rfl, rfl⟩

/-- C6 (amended): the advisor variant's `create_agents` returns its agents
together with a static transition table marked as an allowed-list, while
the single-agent few-shot variant returns only the list
`[user_proxy, assistant]` with no transition table. -/
theorem create_agents_shapes :
    NL2SQLAdvisorStrategy.create_agents_result =
      CreateAgentsResult.configuration
        { agents := [user, assistant, advisor],
          transitions := advisorAllowedTransitions,
          transitions_type := "allowed" } ∧
    NL2SQLAdvisorStrategy.create_agents_result.hasTransitionTable = true ∧
    NL2SQLSingleAgentFewshotCreationStrategy.create_agents =
      CreateAgentsResult.agentList [user, assistant] ∧
    NL2SQLSingleAgentFewshotCreationStrategy.create_agents.hasTransitionTable = false := by
  exact ⟨rfl, rfl, rfl, rfl⟩

/-- C10: in the advisor strategy's transition table no agent appears in
its own successor set, and every listed successor is one of the three
agents created in the same call. -/
theorem advisor_transitions_no_self_loops_and_closed :
    ∀ p ∈ NL2SQLAdvisorStrategy.create_agents.transitions,
      p.1 ∉ p.2 ∧ ∀ b ∈ p.2, b ∈ NL2SQLAdvisorStrategy.create_agents.agents := by
  decide

/-- C10 witness: the advisor's own row of the table — the advisor is
not among its own successors, and both successors are created agents. -/
theorem advisor_transitions_no_self_loops_witness :
    (advisor, [user, assistant]) ∈ NL2SQLAdvisorStrategy.create_agents.transitions ∧
    (advisor ∉ [user, assistant] ∧
      ∀ b ∈ [user, assistant], b ∈ NL2SQLAdvisorStrategy.create_agents.agents) :=
  ⟨by decide,
    advisor_transitions_no_self_loops_and_closed (advisor, [user, assistant]) (by decide)⟩

/-! ## Retrieval tool functions (src/tools/retrieval/vector_index_retrieval.py) -/

/-- Python str.strip() on ASCII whitespace: drop leading and trailing
whitespace characters. -/
def pyIsSpace (c : Char) : Bool :=
  c = ' ' || c = '\t' || c = '\n' || c = '\x0d' || c = '\x0b' || c = '\x0c'

/-- Model of `content.strip()` as used in the document loop. -/
def pyStrip (s : String) : String :=
  String.mk (((s.data.dropWhile pyIsSpace).reverse.dropWhile pyIsSpace).reverse)

/-- One document of the Azure AI Search response body `json['value']`;
only the fields the function reads. -/
structure SearchDoc where
  filepath : String
  content : String
  deriving DecidableEq, Repr

/-- The parsed JSON body of the search response: the `value` document
list. -/
structure SearchJson where
  value : List SearchDoc
  deriving DecidableEq, Repr

/-- The `requests.post` response: status code, raw text and the result
of `response.json()` (which may itself raise). -/
structure PostResponse where
  status_code : Nat
  text : String
  jsonResult : Except String SearchJson
  deriving Repr

/-- Oracle for the fallible external steps of `vector_index_retrieve`,
in the order the source performs them: `DefaultAzureCredential()`
(line 29), `aoai.get_embeddings` (line 32), `credential.get_token`
(lines 35-36), `requests.post` (line 74). An `Except.error` value means
that step raised an exception. -/
structure VectorOracle where
  credential : Except String Unit
  embeddings : Except String (List Int)
  token : Except String String
  post : Except String PostResponse

/-- The line appended to `search_results` for one retrieved document
(line 87): `doc['filepath'] + ": " + doc['content'].strip() + "\n"`. -/
def docEntry (doc : SearchDoc) : String :=
  doc.filepath ++ ": " ++ pyStrip doc.content ++ "\n"

/-- The `search_results` list accumulated inside the try block of
`vector_index_retrieve` (lines 26-96): empty when any step raises or
the status code is 400 or greater, otherwise one formatted entry per
document of `json['value']` in received order. -/
def vectorSearchResults (o : VectorOracle) : List String :=
  match o.credential with
  | Except.error _ => []
  | Except.ok _ =>
    match o.embeddings with
    | Except.error _ => []
    | Except.ok _ =>
      match o.token with
      | Except.error _ => []
      | Except.ok _ =>
        match o.post with
        | Except.error _ => []
        | Except.ok resp =>
          match resp.jsonResult with
          | Except.error _ => []
          | Except.ok j =>
            if 400 ≤ resp.status_code then []
            else j.value.map docEntry

/-- Model of `vector_index_retrieve` (lines 9-99): run the try block and return
`' '.join(search_results)` (lines 98-99). -/
def vector_index_retrieve (o : VectorOracle) : String :=
  String.intercalate " " (vectorSearchResults o)

/-- An invocation in which some external step raised, or the search
service answered with status 400 or greater. -/
def vectorFails (o : VectorOracle) : Prop :=
  (∃ e, o.credential = Except.error e) ∨
  (∃ e, o.embeddings = Except.error e) ∨
  (∃ e, o.token = Except.error e) ∨
  (∃ e, o.post = Except.error e) ∨
  (∃ resp, o.post = Except.ok resp ∧
    ((∃ e, resp.jsonResult = Except.error e) ∨ 400 ≤ resp.status_code))

/-- An invocation in which every external step succeeded and the service
answered with a status below 400 carrying parsed body `j`. -/
def vectorSucceeds (o : VectorOracle) (j : SearchJson) : Prop :=
  (∃ c, o.credential = Except.ok c) ∧
  (∃ v, o.embeddings = Except.ok v) ∧
  (∃ t, o.token = Except.ok t) ∧
  (∃ resp, o.post = Except.ok resp ∧ resp.jsonResult = Except.ok j ∧
    resp.status_code < 400)

/-- C2: whenever the credential, embedding, HTTP or JSON-parsing step
raises, or the service answers with status 400 or greater,
`vector_index_retrieve` returns the empty string (the exception is
swallowed, never propagated). -/
theorem vector_index_retrieve_failure_empty (o : VectorOracle)
    (h : vectorFails o) : vector_index_retrieve o = "" := by
  obtain ⟨cr, em, tk, po⟩ := o
  cases cr with
  | error e => rfl
  | ok u =>
  cases em with
  | error e => rfl
  | ok v =>
  cases tk with
  | error e => rfl
  | ok t =>
  cases po with
  | error e => rfl
  | ok resp =>
  obtain ⟨sc, tx, jr⟩ := resp
  cases jr with
  | error e => rfl
  | ok j =>
    have hstatus : 400 ≤ sc := by
      rcases h with ⟨e, he⟩ | ⟨e, he⟩ | ⟨e, he⟩ | ⟨e, he⟩ | ⟨r, hr, hrest⟩
      · exact absurd he (by simp [vectorFails])
      · exact absurd he (by simp)
      · exact absurd he (by simp)
      · exact absurd he (by simp)
      · cases hr
        rcases hrest with ⟨e, he⟩ | hst
        · exact absurd he (by simp)
        · exact hst
    simp [vector_index_retrieve, vectorSearchResults, hstatus]
    rfl

/-- A concrete failing invocation: the HTTP POST itself raises. -/
def vectorOracleFail : VectorOracle :=
  { credential := Except.ok ()
    embeddings := Except.ok [1, 2]
    token := Except.ok "tok"
    post := Except.error "ConnectionError" }

/-- C2 witness: on a concrete invocation whose POST raises, the function
returns the empty string. -/
theorem vector_index_retrieve_failure_empty_witness :
    vector_index_retrieve vectorOracleFail = "" :=
  vector_index_retrieve_failure_empty vectorOracleFail
    (Or.inr (Or.inr (Or.inr (Or.inl ⟨"ConnectionError", rfl⟩))))

/-- Right-fold form of joining with a separator: `sepJoin s [a, b]` is
`s ++ a ++ s ++ b`. Used to reason about `String.intercalate`. -/
def sepJoin (s : String) : List String → String
  | [] => ""
  | a :: as => s ++ a ++ sepJoin s as

theorem intercalate_go_eq (s : String) (l : List String) :
    ∀ acc, String.intercalate.go acc s l = acc ++ sepJoin s l := by
  induction l with
  | nil => intro acc; simp [String.intercalate.go, sepJoin]
  | cons a as ih =>
    intro acc
    simp [String.intercalate.go, sepJoin, ih, String.append_assoc]

theorem intercalate_cons (s a : String) (as : List String) :
    String.intercalate s (a :: as) = a ++ sepJoin s as := by
  simpa using intercalate_go_eq s as a

/-- The result string as the spec sentence describes it: one entry per
document in received order — the document's filepath, a colon and
space, the whitespace-stripped content and a trailing newline — with
consecutive entries separated by a single space. -/
def specSearchConcat : List SearchDoc → String
  | [] => ""
  | [d] => d.filepath ++ ": " ++ pyStrip d.content ++ "\n"
  | d :: rest => d.filepath ++ ": " ++ pyStrip d.content ++ "\n" ++ " " ++ specSearchConcat rest

theorem intercalate_map_docEntry (l : List SearchDoc) :
    String.intercalate " " (l.map docEntry) = specSearchConcat l := by
  induction l with
  | nil => rfl
  | cons d rest ih =>
    cases rest with
    | nil => simp [specSearchConcat, docEntry, intercalate_cons, sepJoin]
    | cons d2 rest2 =>
      rw [List.map_cons, intercalate_cons]
      rw [List.map_cons, intercalate_cons] at ih
      show docEntry d ++ sepJoin " " (docEntry d2 :: rest2.map docEntry) =
        d.filepath ++ ": " ++ pyStrip d.content ++ "\n" ++ " " ++
          specSearchConcat (d2 :: rest2)
      rw [← ih]
      simp only [docEntry, sepJoin, String.append_assoc]

/-- C3: when every step succeeds, the status is below 400 and the
document list is non-empty, `vector_index_retrieve` returns the
space-separated concatenation, in received order, of one entry per
document: filepath, colon and space, stripped content, trailing
newline. -/
theorem vector_index_retrieve_success_format (o : VectorOracle) (j : SearchJson)
    (h : vectorSucceeds o j) (hne : j.value ≠ []) :
    vector_index_retrieve o = specSearchConcat j.value := by
  obtain ⟨cr, em, tk, po⟩ := o
  obtain ⟨⟨c, hc⟩, ⟨v, hv⟩, ⟨t, ht⟩, ⟨resp, hp, hj, hs⟩⟩ := h
  subst hc; subst hv; subst ht; subst hp
  obtain ⟨sc, tx, jr⟩ := resp
  simp only at hj hs
  subst hj
  unfold vector_index_retrieve vectorSearchResults
  simp only []
  rw [if_neg (Nat.not_le.mpr hs)]
  exact intercalate_map_docEntry j.value

/-- A concrete successful invocation: two documents retrieved. -/
def vectorOracleSuccess : VectorOracle :=
  { credential := Except.ok ()
    embeddings := Except.ok [1, 2]
    token := Except.ok "tok"
    post := Except.ok
      { status_code := 200
        text := "resp"
        jsonResult := Except.ok
          { value := [{ filepath := "a.txt", content := " alpha " },
                      { filepath := "b.txt", content := "beta" }] } } }

/-- C3 witness: on a concrete successful invocation with two documents,
the result is the two formatted entries joined by a space. -/
theorem vector_index_retrieve_success_format_witness :
    vector_index_retrieve vectorOracleSuccess = "a.txt: alpha\n b.txt: beta\n" := by
  have h := vector_index_retrieve_success_format vectorOracleSuccess
    { value := [{ filepath := "a.txt", content := " alpha " },
                { filepath := "b.txt", content := "beta" }] }
    ⟨⟨(), rfl⟩, ⟨[1, 2], rfl⟩, ⟨"tok", rfl⟩, ⟨_, rfl, rfl, by decide⟩⟩
    (by decide)
  rw [h]
  rfl

/-! ## External call trace of `vector_index_retrieve` (C5) -/

/-- The kinds of external service requests `vector_index_retrieve` can
issue: the embeddings request to Azure OpenAI (line 32), the token
request to Azure AD (line 35) and the POST to the search service
(line 74). -/
inductive ExtCall
  | getEmbeddings
  | getToken
  | searchPost
  deriving DecidableEq, Repr

/-- The external service requests attempted by one invocation of
`vector_index_retrieve`, in source order; a request is recorded when it
is attempted, and a raised exception aborts the rest of the try
block. -/
def vector_index_retrieve_calls (o : VectorOracle) : List ExtCall :=
  match o.credential with
  | Except.error _ => []
  | Except.ok _ =>
    ExtCall.getEmbeddings ::
      match o.embeddings with
      | Except.error _ => []
      | Except.ok _ =>
        ExtCall.getToken ::
          match o.token with
          | Except.error _ => []
          | Except.ok _ => [ExtCall.searchPost]

/-- C5 counterexample: a fully successful invocation of
`vector_index_retrieve` performs three external service calls — the
embeddings request, the token request and the search POST — so it is
false that a single invocation never performs more than one external
service call. -/
theorem vector_index_retrieve_three_external_calls :
    vector_index_retrieve_calls vectorOracleSuccess =
      [ExtCall.getEmbeddings, ExtCall.getToken, ExtCall.searchPost] ∧
    ¬ (vector_index_retrieve_calls vectorOracleSuccess).length ≤ 1 :=
  ⟨rfl, by decide⟩

/-- C5 (amended): one invocation of `vector_index_retrieve` attempts at
most three external calls — embeddings, token, search POST, in that
order, stopping at the first raised exception — and in particular the
search service itself receives at most one request per invocation. -/
theorem vector_index_retrieve_calls_shape (o : VectorOracle) :
    (vector_index_retrieve_calls o = [] ∨
     vector_index_retrieve_calls o = [ExtCall.getEmbeddings] ∨
     vector_index_retrieve_calls o = [ExtCall.getEmbeddings, ExtCall.getToken] ∨
     vector_index_retrieve_calls o =
       [ExtCall.getEmbeddings, ExtCall.getToken, ExtCall.searchPost]) ∧
    (vector_index_retrieve_calls o).count ExtCall.searchPost ≤ 1 := by
  have hshape : vector_index_retrieve_calls o = [] ∨
      vector_index_retrieve_calls o = [ExtCall.getEmbeddings] ∨
      vector_index_retrieve_calls o = [ExtCall.getEmbeddings, ExtCall.getToken] ∨
      vector_index_retrieve_calls o =
        [ExtCall.getEmbeddings, ExtCall.getToken, ExtCall.searchPost] := by
    obtain ⟨cr, em, tk, po⟩ := o
    cases cr with
    | error e => exact Or.inl rfl
    | ok u =>
    cases em with
    | error e => exact Or.inr (Or.inl rfl)
    | ok v =>
    cases tk with
    | error e => exact Or.inr (Or.inr (Or.inl rfl))
    | ok t => exact Or.inr (Or.inr (Or.inr rfl))
  refine ⟨hshape, ?_⟩
  rcases hshape with h | h | h | h <;> rw [h] <;> decide

/-! ## Termination predicate (C7) -/

/-- A chat message as seen by the `is_termination_msg` lambdas: only the
`content` entry matters, and `none` models a missing or null
`msg.get("content")`. -/
structure Msg where
  content : Option String
  deriving DecidableEq, Repr

/-- Does the character list `s` start with `p`? -/
def startsWithChars : List Char → List Char → Bool
  | [], _ => true
  | _ :: _, [] => false
  | p :: ps, c :: cs => p == c && startsWithChars ps cs

/-- Python's `pat in s` substring test, over character lists: `pat`
occurs at some position of `s`. -/
def hasSubChars (pat : List Char) : List Char → Bool
  | [] => startsWithChars pat []
  | c :: cs => startsWithChars pat (c :: cs) || hasSubChars pat cs

/-- The termination lambda attached to the user proxy and assistant
agents (nl2sql_advisor_strategy.py lines 45 and 57,
nl2sql_single_agent_fewshot_creation_strategy.py line 49):
`msg.get("content") is not None and "TERMINATE" in msg["content"]`. -/
def is_termination_msg (msg : Msg) : Bool :=
  match msg.content with
  | none => false
  | some c => hasSubChars "TERMINATE".data c.data

theorem startsWithChars_iff (p : List Char) :
    ∀ s, startsWithChars p s = true ↔ ∃ t, s = p ++ t := by
  induction p with
  | nil => intro s; simp [startsWithChars]
  | cons a ps ih =>
    intro s
    cases s with
    | nil => simp [startsWithChars]
    | cons c cs =>
      simp only [startsWithChars, Bool.and_eq_true, beq_iff_eq, ih,
        List.cons_append, List.cons.injEq]
      constructor
      · rintro ⟨hac, t, ht⟩
        exact ⟨t, hac.symm, ht⟩
      · rintro ⟨t, hca, ht⟩
        exact ⟨hca.symm, t, ht⟩

theorem hasSubChars_iff (pat : List Char) :
    ∀ s, hasSubChars pat s = true ↔ ∃ l r, s = l ++ pat ++ r := by
  intro s
  induction s with
  | nil =>
    simp only [hasSubChars, startsWithChars_iff]
    constructor
    · rintro ⟨t, ht⟩
      exact ⟨[], t, by simpa using ht⟩
    · rintro ⟨l, r, hlr⟩
      have h : l ++ (pat ++ r) = [] := by rw [← List.append_assoc]; exact hlr.symm
      rcases List.append_eq_nil.mp h with ⟨h1, h2⟩
      rcases List.append_eq_nil.mp h2 with ⟨h3, h4⟩
      exact ⟨[], by simp [h3, h4]⟩
  | cons c cs ih =>
    simp only [hasSubChars, Bool.or_eq_true, startsWithChars_iff, ih]
    constructor
    · rintro (⟨t, ht⟩ | ⟨l, r, hlr⟩)
      · exact ⟨[], t, by simpa using ht⟩
      · exact ⟨c :: l, r, by simp [hlr]⟩
    · rintro ⟨l, r, hlr⟩
      cases l with
      | nil => exact Or.inl ⟨r, by simpa using hlr⟩
      | cons a l2 =>
        rw [List.cons_append, List.cons_append, List.cons.injEq] at hlr
        exact Or.inr ⟨l2, r, hlr.2⟩

/-- C7: the termination predicate returns true exactly when the
message's content is non-null and contains the sentinel `"TERMINATE"`
as a substring. -/
theorem is_termination_msg_iff (msg : Msg) :
    is_termination_msg msg = true ↔
      ∃ c, msg.content = some c ∧ ∃ l r : String, c = l ++ "TERMINATE" ++ r := by
  obtain ⟨content⟩ := msg
  cases content with
  | none => simp [is_termination_msg]
  | some c =>
    simp only [is_termination_msg, Option.some.injEq]
    rw [hasSubChars_iff]
    constructor
    · rintro ⟨l, r, h⟩
      refine ⟨c, rfl, String.mk l, String.mk r, String.ext ?_⟩
      simpa using h
    · rintro ⟨c2, hc, l, r, h⟩
      rcases hc with rfl
      refine ⟨l.data, r.data, ?_⟩
      simpa using congrArg String.data h

/-- C7 sanity: concrete evaluations of the termination predicate. -/
theorem is_termination_msg_examples :
    is_termination_msg { content := some "All done. TERMINATE" } = true ∧
    is_termination_msg { content := some "still working" } = false ∧
    is_termination_msg { content := none } = false := by
  decide

/-! ## Search request body construction (C9) -/

/-- The fields of the search POST body whose presence depends on the
configuration (vector_index_retrieval.py lines 40-64): the text
`search` query, the `vectorQueries` entry, and the semantic
`queryType` / `semanticConfiguration` pair. -/
structure SearchBody where
  search : Option String
  hasVectorQueries : Bool
  queryType : Option String
  semanticConfiguration : Option String
  deriving DecidableEq, Repr

/-- Model of `use_semantic == "true"` where `use_semantic` is
`os.getenv('AZURE_SEARCH_USE_SEMANTIC', False)` (line 16): the env
value compared to the string `"true"`; when the variable is unset the
default is the boolean `False`, which is never equal to a string. -/
def useSemanticFlag (useSemanticEnv : Option String) : Bool :=
  match useSemanticEnv with
  | none => false
  | some s => s == "true"

/-- The body after the search-approach branch (lines 40-60): base body,
then `search` and/or `vectorQueries` according to the approach. -/
def approachBody (search_approach search_query : String) : SearchBody :=
  let body : SearchBody :=
    { search := none, hasVectorQueries := false,
      queryType := none, semanticConfiguration := none }
  if search_approach = "term" then { body with search := some search_query }
  else if search_approach = "vector" then { body with hasVectorQueries := true }
  else if search_approach = "hybrid" then
    { body with search := some search_query, hasVectorQueries := true }
  else body

/-- The full body (lines 40-64): the approach branch followed by the
semantic branch, which fires when `use_semantic == "true"` and the
approach is not `"vector"` (line 62). -/
def buildSearchBody (useSemanticEnv : Option String)
    (search_approach semantic_search_config search_query : String) : SearchBody :=
  let body := approachBody search_approach search_query
  if useSemanticFlag useSemanticEnv = true ∧ search_approach ≠ "vector" then
    { body with queryType := some "semantic",
                semanticConfiguration := some semantic_search_config }
  else body

theorem useSemanticFlag_eq_true (v : Option String) :
    useSemanticFlag v = true ↔ v = some "true" := by
  cases v with
  | none => simp [useSemanticFlag]
  | some s => simp [useSemanticFlag]

theorem approachBody_no_semantic (a q : String) :
    (approachBody a q).queryType = none ∧
    (approachBody a q).semanticConfiguration = none := by
  unfold approachBody
  split_ifs <;> exact ⟨rfl, rfl⟩

/-- C9: the semantic query type and semantic configuration are added to
the request body if and only if the `AZURE_SEARCH_USE_SEMANTIC`
environment value is exactly the string `"true"` and the search
approach is not `"vector"`; the unset default (the boolean `False`)
never enables them. -/
theorem buildSearchBody_semantic_iff (v : Option String) (a cfg q : String) :
    ((buildSearchBody v a cfg q).queryType = some "semantic" ∧
      (buildSearchBody v a cfg q).semanticConfiguration = some cfg) ↔
      (v = some "true" ∧ a ≠ "vector") := by
  unfold buildSearchBody
  by_cases hc : useSemanticFlag v = true ∧ a ≠ "vector"
  · rw [if_pos hc]
    rw [useSemanticFlag_eq_true] at hc
    simp [hc.1, hc.2]
  · rw [if_neg hc]
    have h := approachBody_no_semantic a q
    constructor
    · rintro ⟨h1, _⟩
      rw [h.1] at h1
      cases h1
    · rintro ⟨hv, ha⟩
      exact absurd ⟨(useSemanticFlag_eq_true v).mpr hv, ha⟩ hc

/-! ## `cogmo_search` (C8) -/

/-- One document of the cogmo response `json['response']['docs']`;
only the fields the function reads. -/
structure CogmoDoc where
  title : String
  highlighting : String
  deriving DecidableEq, Repr

/-- The parsed JSON body of the cogmo response: the document list
`json['response']['docs']`. -/
structure CogmoJson where
  docs : List CogmoDoc
  deriving DecidableEq, Repr

/-- The `requests.get` response of `cogmo_search`: status code, raw
text and the result of `response.json()`. -/
structure CogmoResponse where
  status_code : Nat
  text : String
  jsonResult : Except String CogmoJson
  deriving Repr

/-- Oracle for the single fallible external step of `cogmo_search`:
the GET request (line 122); `Except.error` means it raised. -/
structure CogmoOracle where
  request : Except String CogmoResponse

/-- Python's `l[0:n]` for an `int` n: the first `n` elements when
`n ≥ 0`, everything but the last `|n|` elements when `n < 0`. -/
def pySliceTo {α : Type} (l : List α) (n : Int) : List α :=
  if 0 ≤ n then l.take n.toNat
  else l.take (l.length - (-n).toNat)

/-- The line appended for one cogmo document (line 135):
`doc['title'] + ": " + doc['highlighting'].strip() + "\n"`. -/
def cogmoDocEntry (d : CogmoDoc) : String :=
  d.title ++ ": " ++ pyStrip d.highlighting ++ "\n"

/-- The `search_results` list of `cogmo_search` (lines 115-137), with
`topK` the value of `int(os.getenv('AZURE_SEARCH_TOP_K', 3))` (default
3): one entry per document of `docs[0:topK]` in received order. -/
def cogmoSearchResults (topK : Int) (o : CogmoOracle) : List String :=
  match o.request with
  | Except.error _ => []
  | Except.ok resp =>
    match resp.jsonResult with
    | Except.error _ => []
    | Except.ok j =>
      if 400 ≤ resp.status_code then []
      else (pySliceTo j.docs topK).map cogmoDocEntry

/-- Model of `cogmo_search` (lines 102-147): join on a single space. -/
def cogmo_search (topK : Int) (o : CogmoOracle) : String :=
  String.intercalate " " (cogmoSearchResults topK o)

/-- A concrete successful cogmo response carrying three documents. -/
def cogmoJson3 : CogmoJson :=
  { docs := [{ title := "t1", highlighting := "h1" },
             { title := "t2", highlighting := "h2" },
             { title := "t3", highlighting := "h3" }] }

/-- A concrete successful invocation of `cogmo_search`. -/
def cogmoOracle3 : CogmoOracle :=
  { request := Except.ok
      { status_code := 200, text := "resp",
        jsonResult := Except.ok cogmoJson3 } }

/-- C8 counterexample: with `AZURE_SEARCH_TOP_K` set to `"-1"` (so
`int(search_top_k) = -1`) and a successful response carrying three
documents, `cogmo_search` includes two documents — Python's
`docs[0:-1]` drops only the last — so "at most `int(AZURE_SEARCH_TOP_K)`
documents are included" is false for that invocation. -/
theorem cogmo_search_negative_topk :
    (cogmoSearchResults (-1) cogmoOracle3).length = 2 ∧
    ¬ (((cogmoSearchResults (-1) cogmoOracle3).length : Int) ≤ -1) := by
  refine ⟨rfl, ?_⟩
  intro hle
  have : ((2 : Nat) : Int) ≤ -1 := hle
  exact absurd this (by decide)

/-- C8 (amended): when `int(AZURE_SEARCH_TOP_K)` is non-negative
(default 3) and the service answers successfully, `cogmo_search`
includes the first `topK` documents in received order — at most `topK`
even when the service returns more. -/
theorem cogmo_search_topk_bound (topK : Int) (o : CogmoOracle)
    (resp : CogmoResponse) (j : CogmoJson)
    (hreq : o.request = Except.ok resp)
    (hj : resp.jsonResult = Except.ok j)
    (hs : resp.status_code < 400) (hk : 0 ≤ topK) :
    cogmoSearchResults topK o = (j.docs.take topK.toNat).map cogmoDocEntry ∧
    ((cogmoSearchResults topK o).length : Int) ≤ topK ∧
    cogmo_search topK o =
      String.intercalate " " ((j.docs.take topK.toNat).map cogmoDocEntry) := by
  obtain ⟨req⟩ := o
  simp only at hreq
  subst hreq
  obtain ⟨sc, tx, jr⟩ := resp
  simp only at hj hs
  subst hj
  have h1 : cogmoSearchResults topK
      ⟨Except.ok ⟨sc, tx, Except.ok j⟩⟩ = (j.docs.take topK.toNat).map cogmoDocEntry := by
    show (if 400 ≤ sc then [] else (pySliceTo j.docs topK).map cogmoDocEntry) = _
    rw [if_neg (Nat.not_le.mpr hs)]
    unfold pySliceTo
    rw [if_pos hk]
  refine ⟨h1, ?_, ?_⟩
  · rw [h1, List.length_map, List.length_take]
    calc ((min topK.toNat j.docs.length : Nat) : Int)
        ≤ (topK.toNat : Int) := Int.ofNat_le.mpr (min_le_left _ _)
      _ = topK := Int.toNat_of_nonneg hk
  · unfold cogmo_search
    rw [h1]

/-- C8 witness for the amended bound: `topK = 2` on a successful
response with three documents keeps exactly the first two. -/
theorem cogmo_search_topk_bound_witness :
    cogmoSearchResults 2 cogmoOracle3 =
      (cogmoJson3.docs.take (Int.toNat 2)).map cogmoDocEntry ∧
    ((cogmoSearchResults 2 cogmoOracle3).length : Int) ≤ 2 ∧
    cogmo_search 2 cogmoOracle3 =
      String.intercalate " " ((cogmoJson3.docs.take (Int.toNat 2)).map cogmoDocEntry) :=
  cogmo_search_topk_bound 2 cogmoOracle3
    { status_code := 200, text := "resp", jsonResult := Except.ok cogmoJson3 }
    cogmoJson3 rfl rfl (by decide) (by decide)

end GptRagAgentic
